import Mathlib

set_option maxHeartbeats 1000000
set_option maxRecDepth 8000

/-!
Verification development for the GAN notebook `generate_gaussian.ipynb`.

The notebook trains a one-layer generator (Linear(N, 1) followed by
leaky_relu) against a one-layer discriminator (Linear(1, 1) followed by
sigmoid) with BCELoss, SGD(lr = 0.01) for the generator and
Adam(lr = 0.01) for the discriminator, BATCH_SZ = 128.

Embedding conventions:
* torch float32 tensors are modelled with real-number semantics; a
  2-D tensor of shape (B, d) is a list of B rows, each a list of d reals;
* the shared numpy random source is an abstract stream `ω : ℕ → ℝ`
  together with a consumption counter (numpy's global RNG state);
  the concrete distributions (standard normal / uniform) are abstracted
  into the stream since no claim depends on them;
* reverse-mode autodiff (`loss.backward()`) is embedded as the
  closed-form gradients of the fixed loss compositions used by the
  notebook, accumulated into per-parameter gradient buffers exactly when
  the source calls `backward()`, and cleared exactly when the source
  calls `zero_grad()`.
-/

/-- A 2-D tensor / ndarray: a list of rows of reals. -/
abbrev Mat : Type := List (List ℝ)

/-- Error kind raised by numpy when a sample generator receives a negative
dimension (`ValueError: negative dimensions are not allowed`); the spec
names this kind InvalidArgument. -/
inductive NpError where
  | invalidArgument
deriving DecidableEq

/-- Drawing an (n, d) matrix from the shared random stream: entries are read
row-major starting at the stream counter `c`, and the counter advances by
`n * d` (the number of scalars numpy's global RNG consumes). -/
def sampleMat (n d : ℕ) (ω : ℕ → ℝ) (c : ℕ) : Mat × ℕ :=
  ((List.range n).map (fun i => (List.range d).map (fun j => ω (c + i * d + j))), c + n * d)

/-- `generate_gaussian(n_samples, n_dim)` = `np.random.randn(n_samples, n_dim)`.
Arguments are Python ints. numpy raises ValueError for a negative dimension;
a zero dimension is accepted and yields an empty axis. The standard-normal
distribution of the drawn values is abstracted into the stream `ω`. -/
def generate_gaussian (n_samples n_dim : ℤ) (ω : ℕ → ℝ) (c : ℕ) :
    Except NpError (Mat × ℕ) :=
  if n_samples < 0 ∨ n_dim < 0 then Except.error NpError.invalidArgument
  else Except.ok (sampleMat n_samples.toNat n_dim.toNat ω c)

/-- `generate_uniform(n_samples, n_dim)` = `np.random.rand(n_samples, n_dim)`.
Same argument semantics as `generate_gaussian`; the uniform-[0,1)
distribution of the drawn values is abstracted into the stream `ω`. -/
def generate_uniform (n_samples n_dim : ℤ) (ω : ℕ → ℝ) (c : ℕ) :
    Except NpError (Mat × ℕ) :=
  if n_samples < 0 ∨ n_dim < 0 then Except.error NpError.invalidArgument
  else Except.ok (sampleMat n_samples.toNat n_dim.toNat ω c)

/-- `F.sigmoid` with real-number semantics. -/
noncomputable def sigmoid (z : ℝ) : ℝ := 1 / (1 + Real.exp (-z))

/-- `F.leaky_relu` with the torch default negative slope 0.01. -/
noncomputable def leaky_relu (x : ℝ) : ℝ := if 0 < x then x else 0.01 * x

/-- Derivative of `leaky_relu` as pytorch's backward computes it
(slope 1 for x > 0, slope 0.01 otherwise, including at 0). -/
noncomputable def lreluD (x : ℝ) : ℝ := if 0 < x then 1 else 0.01

/-- Dot product of two rows. -/
def dotList (a b : List ℝ) : ℝ := (List.zipWith (fun x y => x * y) a b).sum

/-- `Generator.forward`: `F.leaky_relu(self.fc(x))` where `fc = Linear(N, 1)`
with weight row `wg` (torch stores the (1, N) weight) and bias `bg`.
The constructor's `self.flatten` is never applied in `forward`. -/
noncomputable def generatorForward (wg : List ℝ) (bg : ℝ) (x : Mat) : Mat :=
  x.map (fun r => [leaky_relu (dotList wg r + bg)])

/-- `Discriminator.forward`: `F.sigmoid(self.fc(x))` where `fc = Linear(1, 1)`
with scalar weight `wd` and bias `bd`, applied to a (B, 1) batch. -/
noncomputable def discriminatorForward (wd bd : ℝ) (x : Mat) : Mat :=
  x.map (fun r => [sigmoid (wd * r.headI + bd)])

/-- torch BCELoss clamps its log outputs from below at -100. -/
noncomputable def clampLog (x : ℝ) : ℝ := max (Real.log x) (-100)

/-- `nn.BCELoss()` with the default mean reduction, on (B, 1) inputs. -/
noncomputable def bceLoss (p y : Mat) : ℝ :=
  -(((List.zipWith
      (fun pr yr => yr.headI * clampLog pr.headI + (1 - yr.headI) * clampLog (1 - pr.headI))
      p y).sum) / (p.length : ℝ))

/-- `Tensor.detach()`: same values; the cut of the autodiff graph is
reflected in which gradient formulas mention the fake batch below. -/
def detach (m : Mat) : Mat := m

/-- `torch.ones((n, 1))`. -/
def onesCol (n : ℕ) : Mat := List.replicate n [(1 : ℝ)]

/-- `torch.zeros((n, 1))`. -/
def zerosCol (n : ℕ) : Mat := List.replicate n [(0 : ℝ)]

/-- A Python value appended to a loss trace. `loss.item()` would produce
`float`; the source writes `loss.item` (no call), which evaluates to the
bound method object of the loss tensor. -/
inductive TraceEntry where
  | float (x : ℝ)
  | itemMethod (x : ℝ)

/-- True iff the trace entry is the (uncalled) bound method `Tensor.item`. -/
def TraceEntry.isItemMethod : TraceEntry → Bool
  | .itemMethod _ => true
  | .float _ => false

/-- True iff the trace entry is a scalar numeric value. -/
def TraceEntry.isScalarValue : TraceEntry → Bool
  | .float _ => true
  | .itemMethod _ => false

/-- Pointwise sum of two gradient/parameter rows. -/
def vecAdd (a b : List ℝ) : List ℝ := List.zipWith (fun x y => x + y) a b

/-- Scalar multiple of a row. -/
def vecScale (c : ℝ) (v : List ℝ) : List ℝ := v.map (fun x => c * x)

/-- Gradient of `BCELoss(discriminatorForward wd bd x, y)` with respect to
`wd`: the per-row dLoss/dlogit is `sigmoid(wd * v + bd) - label`, and the
weight gradient averages logit-gradient times input over the batch. -/
noncomputable def discGradW (wd bd : ℝ) (x y : Mat) : ℝ :=
  ((List.zipWith (fun r yr => (sigmoid (wd * r.headI + bd) - yr.headI) * r.headI) x y).sum)
    / (x.length : ℝ)

/-- Gradient of `BCELoss(discriminatorForward wd bd x, y)` with respect to `bd`. -/
noncomputable def discGradB (wd bd : ℝ) (x y : Mat) : ℝ :=
  ((List.zipWith (fun r yr => sigmoid (wd * r.headI + bd) - yr.headI) x y).sum)
    / (x.length : ℝ)

/-- Per-row factor of the generator-loss gradient: for a noise row `r`,
with pre-activation `a = wg · r + bg`, fake sample `g = leaky_relu a`,
discriminator logit `z = wd * g + bd` and all-zero labels, the dLoss/da
chain factor is `sigmoid z * wd * lreluD a`. -/
noncomputable def genGradCoef (wg : List ℝ) (bg wd bd : ℝ) (r : List ℝ) : ℝ :=
  sigmoid (wd * leaky_relu (dotList wg r + bg) + bd) * wd * lreluD (dotList wg r + bg)

/-- Gradient of the generator loss
`BCELoss(discriminatorForward wd bd (generatorForward wg bg noise), zeros)`
with respect to `bg`. -/
noncomputable def genGradB (wg : List ℝ) (bg wd bd : ℝ) (noise : Mat) : ℝ :=
  ((noise.map (genGradCoef wg bg wd bd)).sum) / (noise.length : ℝ)

/-- Gradient of the generator loss with respect to the weight row `wg`. -/
noncomputable def genGradW (wg : List ℝ) (bg wd bd : ℝ) (noise : Mat) : List ℝ :=
  vecScale (1 / (noise.length : ℝ))
    ((noise.map (fun r => vecScale (genGradCoef wg bg wd bd r) r)).foldl vecAdd
      (List.replicate wg.length 0))

/-- The module-level mutable state of the notebook: the two models'
parameters, their gradient buffers (`None` modelled as 0), the Adam
optimizer state for the discriminator's two parameters, and the two loss
traces built by `train`. -/
structure GanState where
  wg : List ℝ
  bg : ℝ
  wd : ℝ
  bd : ℝ
  gwg : List ℝ
  gbg : ℝ
  gwd : ℝ
  gbd : ℝ
  mwd : ℝ
  vwd : ℝ
  mbd : ℝ
  vbd : ℝ
  tAdam : ℕ
  lossD : List TraceEntry
  lossG : List TraceEntry

/-- `discriminator.zero_grad()`: clears exactly the discriminator's
gradient buffers. The generator's buffers are never cleared anywhere. -/
def zeroGradDisc (st : GanState) : GanState := { st with gwd := 0, gbd := 0 }

/-- Adam first-moment update with torch default beta1 = 0.9. -/
def adamM (m g : ℝ) : ℝ := 0.9 * m + (1 - 0.9) * g

/-- Adam second-moment update with torch default beta2 = 0.999. -/
def adamV (v g : ℝ) : ℝ := 0.999 * v + (1 - 0.999) * (g * g)

/-- Adam parameter update at step count `t` with lr = 0.01 and torch
default eps = 1e-8, using bias-corrected moments. -/
noncomputable def adamTheta (t : ℕ) (m v g θ : ℝ) : ℝ :=
  θ - 0.01 * ((adamM m g / (1 - 0.9 ^ t)) / (Real.sqrt (adamV v g / (1 - 0.999 ^ t)) + 1e-8))

/-- `optimizer_disc.step()`: one Adam step on the discriminator's two
parameters from their gradient buffers. Touches no generator field. -/
noncomputable def adamStepDisc (st : GanState) : GanState :=
  { st with
    wd := adamTheta (st.tAdam + 1) st.mwd st.vwd st.gwd st.wd
    bd := adamTheta (st.tAdam + 1) st.mbd st.vbd st.gbd st.bd
    mwd := adamM st.mwd st.gwd
    vwd := adamV st.vwd st.gwd
    mbd := adamM st.mbd st.gbd
    vbd := adamV st.vbd st.gbd
    tAdam := st.tAdam + 1 }

/-- `optimizer_gen.step()`: one plain SGD step (lr = 0.01) on the
generator's parameters from their gradient buffers. Touches no
discriminator field. -/
def sgdStepGen (st : GanState) : GanState :=
  { st with
    wg := List.zipWith (fun w g => w - 0.01 * g) st.wg st.gwg
    bg := st.bg - 0.01 * st.gbg }

/-- `x = torch.concat([real, created.detach()])`: the discriminator's
training batch, real rows first. -/
noncomputable def discBatch (st : GanState) (noise real : Mat) : Mat :=
  real ++ detach (generatorForward st.wg st.bg noise)

/-- `y = torch.concat([torch.ones((BATCH_SZ,1)), torch.zeros((BATCH_SZ,1))])`. -/
def discLabels : Mat := onesCol 128 ++ zerosCol 128

/-- Intermediate data carried from the discriminator half of a training
iteration into the generator half. -/
structure IterMid where
  st : GanState
  ctr : ℕ
  noise : Mat
  created : Mat

/-- First half of one `train` loop iteration: `discriminator.zero_grad()`,
draw `noise` and `real`, form `created`, `x`, `y`, compute `loss_1`,
`loss_1.backward()` (the fake batch is detached, so only discriminator
buffers accumulate), `optimizer_disc.step()`, and append `loss_1.item`
(the bound method, uncalled) to `loss_D`. -/
noncomputable def discPhase (N : ℕ) (ω : ℕ → ℝ) (p : GanState × ℕ) : IterMid :=
  let st0 := zeroGradDisc p.1
  let noise := (sampleMat 128 N ω p.2).1
  let c1 := (sampleMat 128 N ω p.2).2
  let real := (sampleMat 128 1 ω c1).1
  let c2 := (sampleMat 128 1 ω c1).2
  let created := generatorForward st0.wg st0.bg noise
  let x := discBatch st0 noise real
  let st1 := { st0 with
    gwd := st0.gwd + discGradW st0.wd st0.bd x discLabels
    gbd := st0.gbd + discGradB st0.wd st0.bd x discLabels }
  let st2 := adamStepDisc st1
  let st3 := { st2 with
    lossD := st2.lossD ++
      [TraceEntry.itemMethod (bceLoss (discriminatorForward st0.wd st0.bd x) discLabels)] }
  ⟨st3, c2, noise, created⟩

/-- Second half of one `train` loop iteration: `discriminator.zero_grad()`,
`out2 = discriminator(created)` with the just-updated discriminator
parameters, `loss_2 = criterion(out2, zeros)`, `loss_2.backward()`
(`created` is attached, so gradients flow into the generator buffers,
which are never cleared, and also into the discriminator buffers),
`optimizer_gen.step()`, and append `loss_2.item` (the bound method,
uncalled) to `loss_G`. -/
noncomputable def genPhase (m : IterMid) : GanState × ℕ :=
  let st0 := zeroGradDisc m.st
  let loss2 := bceLoss (discriminatorForward st0.wd st0.bd m.created) (zerosCol 128)
  let st1 := { st0 with
    gwg := vecAdd st0.gwg (genGradW st0.wg st0.bg st0.wd st0.bd m.noise)
    gbg := st0.gbg + genGradB st0.wg st0.bg st0.wd st0.bd m.noise
    gwd := st0.gwd + discGradW st0.wd st0.bd m.created (zerosCol 128)
    gbd := st0.gbd + discGradB st0.wd st0.bd m.created (zerosCol 128) }
  let st2 := sgdStepGen st1
  let st3 := { st2 with lossG := st2.lossG ++ [TraceEntry.itemMethod loss2] }
  (st3, m.ctr)

/-- One full iteration of the `train` loop body. -/
noncomputable def trainStep (N : ℕ) (ω : ℕ → ℝ) (p : GanState × ℕ) : GanState × ℕ :=
  genPhase (discPhase N ω p)

/-- State (and stream counter) after `t` iterations of the loop started
from `init` with counter `c0`. -/
noncomputable def runStates (N : ℕ) (ω : ℕ → ℝ) (init : GanState) (c0 : ℕ) :
    ℕ → GanState × ℕ
  | 0 => (init, c0)
  | t + 1 => trainStep N ω (runStates N ω init c0 t)

/-- `train(epochs)`: initialises `loss_D = []`, `loss_G = []`, runs the loop
`epochs` times and returns `(loss_D, loss_G)`. `N` is the module-level
noise dimensionality (10 in the captured run); BATCH_SZ = 128 is fixed
inside the loop body. -/
noncomputable def train (N : ℕ) (ω : ℕ → ℝ) (init : GanState) (c0 epochs : ℕ) :
    List TraceEntry × List TraceEntry :=
  ((runStates N ω { init with lossD := [], lossG := [] } c0 epochs).1.lossD,
   (runStates N ω { init with lossD := [], lossG := [] } c0 epochs).1.lossG)

/-- Freshly constructed models and optimizers (cell 7): given initial
parameters, all gradient buffers are `None` (0 here), the Adam state is
empty and the traces are empty. -/
def initState (wg : List ℝ) (bg wd bd : ℝ) : GanState :=
  { wg := wg, bg := bg, wd := wd, bd := bd
    gwg := List.replicate wg.length 0, gbg := 0, gwd := 0, gbd := 0
    mwd := 0, vwd := 0, mbd := 0, vbd := 0, tAdam := 0
    lossD := [], lossG := [] }

/-- The evaluation cell: under `torch.no_grad()`, draw a
(sample_count, N) noise batch, run the generator, detach. It reads the
model state and returns it untouched (no backward, no optimizer call). -/
noncomputable def evaluateRun (st : GanState) (sample_count N : ℕ) (ω : ℕ → ℝ) (c : ℕ) :
    Mat × GanState :=
  (detach (generatorForward st.wg st.bg (sampleMat sample_count N ω c).1), st)

/-- The value `generated_samples` produced by the evaluation cell. -/
noncomputable def evaluate (st : GanState) (sample_count N : ℕ) (ω : ℕ → ℝ) (c : ℕ) : Mat :=
  (evaluateRun st sample_count N ω c).1

/-- Observable nesting structure of a numpy/torch value: a scalar, or an
array of values. A 2-D (S, 1) tensor and a flat length-S vector are
different values of this type. -/
inductive NPValue where
  | scalar (x : ℝ)
  | arr (elems : List NPValue)

/-- The nesting structure of a 2-D tensor: an array of rows, each an array
of scalars. -/
def npOfMat (m : Mat) : NPValue :=
  NPValue.arr (m.map (fun r => NPValue.arr (r.map NPValue.scalar)))

/-- Written from the spec's words for the refinement comparison (§4.5
"returns the flattened 1-D output vector"): evaluation flattens the
generator output into a flat vector of scalars. -/
noncomputable def evaluateSpec (st : GanState) (sample_count N : ℕ) (ω : ℕ → ℝ) (c : ℕ) :
    NPValue :=
  NPValue.arr ((evaluate st sample_count N ω c).flatten.map NPValue.scalar)

/-- The `IterMid` reached inside iteration `t` (0-indexed) of a run. -/
noncomputable def midAt (N : ℕ) (ω : ℕ → ℝ) (init : GanState) (c0 t : ℕ) : IterMid :=
  discPhase N ω (runStates N ω init c0 t)

/-- The scalar value of `loss_2` computed at iteration `t`: binary
cross-entropy between the discriminator output on the attached fake batch
and an all-zero (128, 1) label tensor. -/
noncomputable def genLossAt (N : ℕ) (ω : ℕ → ℝ) (init : GanState) (c0 t : ℕ) : ℝ :=
  bceLoss
    (discriminatorForward (midAt N ω init c0 t).st.wd (midAt N ω init c0 t).st.bd
      (midAt N ω init c0 t).created)
    (zerosCol 128)

/-- Gradient of iteration `t`'s generator loss with respect to `bg`,
evaluated at iteration `t`'s parameters. -/
noncomputable def genGradBAt (N : ℕ) (ω : ℕ → ℝ) (init : GanState) (c0 t : ℕ) : ℝ :=
  genGradB (midAt N ω init c0 t).st.wg (midAt N ω init c0 t).st.bg
    (midAt N ω init c0 t).st.wd (midAt N ω init c0 t).st.bd (midAt N ω init c0 t).noise

/-- Gradient of iteration `t`'s generator loss with respect to `wg`,
evaluated at iteration `t`'s parameters. -/
noncomputable def genGradWAt (N : ℕ) (ω : ℕ → ℝ) (init : GanState) (c0 t : ℕ) : List ℝ :=
  genGradW (midAt N ω init c0 t).st.wg (midAt N ω init c0 t).st.bg
    (midAt N ω init c0 t).st.wd (midAt N ω init c0 t).st.bd (midAt N ω init c0 t).noise

/-- The `bg`-gradient actually consumed by `optimizer_gen.step()` at
iteration `t`: the generator buffer is written only by iteration `t`'s
`loss_2.backward()` before the step and is untouched afterwards, so it is
the buffer in the post-iteration state. -/
noncomputable def appliedGenGradB (N : ℕ) (ω : ℕ → ℝ) (init : GanState) (c0 t : ℕ) : ℝ :=
  (runStates N ω init c0 (t + 1)).1.gbg

/-- The `wg`-gradient actually consumed by `optimizer_gen.step()` at
iteration `t`. -/
noncomputable def appliedGenGradW (N : ℕ) (ω : ℕ → ℝ) (init : GanState) (c0 t : ℕ) : List ℝ :=
  (runStates N ω init c0 (t + 1)).1.gwg

/-- Vector sum `start + f 0 + f 1 + ... + f (t - 1)` of gradient rows. -/
def vecFoldSum (start : List ℝ) (f : ℕ → List ℝ) (t : ℕ) : List ℝ :=
  (List.range t).foldl (fun acc i => vecAdd acc (f i)) start

/-- The all-zeros random stream, used for concrete instances. -/
def zeroStream : ℕ → ℝ := fun _ => 0

/-- A concrete freshly initialised module state: N = 10, generator weights
and bias zero, discriminator weight 1 and bias 0. -/
def run0init : GanState := initState (List.replicate 10 0) 0 1 0

/-! ### Frame and unfolding lemmas for the loop state -/

@[simp] lemma zeroGradDisc_wg (st : GanState) : (zeroGradDisc st).wg = st.wg := rfl

@[simp] lemma zeroGradDisc_bg (st : GanState) : (zeroGradDisc st).bg = st.bg := rfl

@[simp] lemma zeroGradDisc_wd (st : GanState) : (zeroGradDisc st).wd = st.wd := rfl

@[simp] lemma zeroGradDisc_bd (st : GanState) : (zeroGradDisc st).bd = st.bd := rfl

@[simp] lemma zeroGradDisc_gwg (st : GanState) : (zeroGradDisc st).gwg = st.gwg := rfl

@[simp] lemma zeroGradDisc_gbg (st : GanState) : (zeroGradDisc st).gbg = st.gbg := rfl

@[simp] lemma zeroGradDisc_gwd (st : GanState) : (zeroGradDisc st).gwd = 0 := rfl

@[simp] lemma zeroGradDisc_gbd (st : GanState) : (zeroGradDisc st).gbd = 0 := rfl

@[simp] lemma zeroGradDisc_mwd (st : GanState) : (zeroGradDisc st).mwd = st.mwd := rfl

@[simp] lemma zeroGradDisc_vwd (st : GanState) : (zeroGradDisc st).vwd = st.vwd := rfl

@[simp] lemma zeroGradDisc_mbd (st : GanState) : (zeroGradDisc st).mbd = st.mbd := rfl

@[simp] lemma zeroGradDisc_vbd (st : GanState) : (zeroGradDisc st).vbd = st.vbd := rfl

@[simp] lemma zeroGradDisc_tAdam (st : GanState) : (zeroGradDisc st).tAdam = st.tAdam := rfl

@[simp] lemma zeroGradDisc_lossD (st : GanState) : (zeroGradDisc st).lossD = st.lossD := rfl

@[simp] lemma zeroGradDisc_lossG (st : GanState) : (zeroGradDisc st).lossG = st.lossG := rfl

@[simp] lemma adamStepDisc_wg (st : GanState) : (adamStepDisc st).wg = st.wg := rfl

@[simp] lemma adamStepDisc_bg (st : GanState) : (adamStepDisc st).bg = st.bg := rfl

@[simp] lemma adamStepDisc_gwg (st : GanState) : (adamStepDisc st).gwg = st.gwg := rfl

@[simp] lemma adamStepDisc_gbg (st : GanState) : (adamStepDisc st).gbg = st.gbg := rfl

@[simp] lemma adamStepDisc_gwd (st : GanState) : (adamStepDisc st).gwd = st.gwd := rfl

@[simp] lemma adamStepDisc_gbd (st : GanState) : (adamStepDisc st).gbd = st.gbd := rfl

@[simp] lemma adamStepDisc_lossD (st : GanState) : (adamStepDisc st).lossD = st.lossD := rfl

@[simp] lemma adamStepDisc_lossG (st : GanState) : (adamStepDisc st).lossG = st.lossG := rfl

@[simp] lemma sgdStepGen_wd (st : GanState) : (sgdStepGen st).wd = st.wd := rfl

@[simp] lemma sgdStepGen_bd (st : GanState) : (sgdStepGen st).bd = st.bd := rfl

@[simp] lemma sgdStepGen_gwg (st : GanState) : (sgdStepGen st).gwg = st.gwg := rfl

@[simp] lemma sgdStepGen_gbg (st : GanState) : (sgdStepGen st).gbg = st.gbg := rfl

@[simp] lemma sgdStepGen_lossD (st : GanState) : (sgdStepGen st).lossD = st.lossD := rfl

@[simp] lemma sgdStepGen_lossG (st : GanState) : (sgdStepGen st).lossG = st.lossG := rfl

@[simp] lemma discPhase_st_wg (N : ℕ) (ω : ℕ → ℝ) (p : GanState × ℕ) :
    (discPhase N ω p).st.wg = p.1.wg := rfl

@[simp] lemma discPhase_st_bg (N : ℕ) (ω : ℕ → ℝ) (p : GanState × ℕ) :
    (discPhase N ω p).st.bg = p.1.bg := rfl

@[simp] lemma discPhase_st_gwg (N : ℕ) (ω : ℕ → ℝ) (p : GanState × ℕ) :
    (discPhase N ω p).st.gwg = p.1.gwg := rfl

@[simp] lemma discPhase_st_gbg (N : ℕ) (ω : ℕ → ℝ) (p : GanState × ℕ) :
    (discPhase N ω p).st.gbg = p.1.gbg := rfl

@[simp] lemma discPhase_st_lossG (N : ℕ) (ω : ℕ → ℝ) (p : GanState × ℕ) :
    (discPhase N ω p).st.lossG = p.1.lossG := rfl

@[simp] lemma discPhase_noise (N : ℕ) (ω : ℕ → ℝ) (p : GanState × ℕ) :
    (discPhase N ω p).noise = (sampleMat 128 N ω p.2).1 := rfl

@[simp] lemma discPhase_created (N : ℕ) (ω : ℕ → ℝ) (p : GanState × ℕ) :
    (discPhase N ω p).created = generatorForward p.1.wg p.1.bg (sampleMat 128 N ω p.2).1 := rfl

lemma runStates_zero (N : ℕ) (ω : ℕ → ℝ) (init : GanState) (c0 : ℕ) :
    runStates N ω init c0 0 = (init, c0) := rfl

lemma runStates_succ (N : ℕ) (ω : ℕ → ℝ) (init : GanState) (c0 t : ℕ) :
    runStates N ω init c0 (t + 1) = trainStep N ω (runStates N ω init c0 t) := rfl

/-! ### List and activation helpers -/

lemma zipWith_replicate_left {α β γ : Type} (f : α → β → γ) (a : α) (n : ℕ) (l : List β) :
    List.zipWith f (List.replicate n a) l = (l.take n).map (f a) := by
  induction n generalizing l with
  | zero => simp
  | succ n ih =>
    cases l with
    | nil => simp
    | cons b t => simp [List.replicate_succ, ih]

lemma sigmoid_pos (z : ℝ) : 0 < sigmoid z := by
  unfold sigmoid
  positivity

lemma sigmoid_lt_one (z : ℝ) : sigmoid z < 1 := by
  unfold sigmoid
  rw [div_lt_one (by positivity)]
  linarith [Real.exp_pos (-z)]

@[simp] lemma sampleMat_fst_length (n d : ℕ) (ω : ℕ → ℝ) (c : ℕ) :
    (sampleMat n d ω c).1.length = n := by
  simp [sampleMat]

lemma sampleMat_zeroStream (n d c : ℕ) :
    (sampleMat n d zeroStream c).1 = List.replicate n (List.replicate d 0) := by
  simp [sampleMat, zeroStream, List.map_const', List.length_range]

@[simp] lemma leaky_relu_zero : leaky_relu 0 = 0 := by
  simp [leaky_relu]

@[simp] lemma lreluD_zero : lreluD 0 = 0.01 := by
  simp [lreluD]

lemma dotList_replicate_zero (n : ℕ) :
    dotList (List.replicate n 0) (List.replicate n 0) = 0 := by
  simp [dotList, zipWith_replicate_left, List.take_replicate, List.map_replicate,
    List.sum_replicate]

lemma generatorForward_zeroRun (n N : ℕ) :
    generatorForward (List.replicate N 0) 0 (List.replicate n (List.replicate N 0)) =
      List.replicate n [(0 : ℝ)] := by
  simp [generatorForward, List.map_replicate, dotList_replicate_zero]

lemma discGradW_zero_rows (wd bd : ℝ) (n : ℕ) (y : Mat) :
    discGradW wd bd (List.replicate n [(0 : ℝ)]) y = 0 := by
  unfold discGradW
  rw [zipWith_replicate_left]
  rw [List.sum_eq_zero]
  · simp
  · intro z hz
    rcases List.mem_map.mp hz with ⟨yr, _, rfl⟩
    simp

lemma adamTheta_zeroGrad (t : ℕ) (θ : ℝ) : adamTheta t 0 0 0 θ = θ := by
  simp [adamTheta, adamM, adamV, Real.sqrt_zero]

/-! ### Per-iteration transition lemmas -/

lemma trainStep_lossD_shape (N : ℕ) (ω : ℕ → ℝ) (p : GanState × ℕ) :
    ∃ L : ℝ, (trainStep N ω p).1.lossD = p.1.lossD ++ [TraceEntry.itemMethod L] :=
  ⟨_, rfl⟩

lemma trainStep_lossG_shape (N : ℕ) (ω : ℕ → ℝ) (p : GanState × ℕ) :
    ∃ L : ℝ, (trainStep N ω p).1.lossG = p.1.lossG ++ [TraceEntry.itemMethod L] :=
  ⟨_, rfl⟩

lemma runStates_lossD_length (N : ℕ) (ω : ℕ → ℝ) (init : GanState) (c0 : ℕ) (t : ℕ) :
    (runStates N ω init c0 t).1.lossD.length = init.lossD.length + t := by
  induction t with
  | zero => simp [runStates_zero]
  | succ n ih =>
    obtain ⟨L, hL⟩ := trainStep_lossD_shape N ω (runStates N ω init c0 n)
    rw [runStates_succ, hL, List.length_append, ih, List.length_singleton]
    omega

lemma runStates_lossG_length (N : ℕ) (ω : ℕ → ℝ) (init : GanState) (c0 : ℕ) (t : ℕ) :
    (runStates N ω init c0 t).1.lossG.length = init.lossG.length + t := by
  induction t with
  | zero => simp [runStates_zero]
  | succ n ih =>
    obtain ⟨L, hL⟩ := trainStep_lossG_shape N ω (runStates N ω init c0 n)
    rw [runStates_succ, hL, List.length_append, ih, List.length_singleton]
    omega

lemma runStates_lossD_all (N : ℕ) (ω : ℕ → ℝ) (init : GanState) (c0 : ℕ) (t : ℕ)
    (h : init.lossD.all TraceEntry.isItemMethod = true) :
    (runStates N ω init c0 t).1.lossD.all TraceEntry.isItemMethod = true := by
  induction t with
  | zero => simpa [runStates_zero] using h
  | succ n ih =>
    obtain ⟨L, hL⟩ := trainStep_lossD_shape N ω (runStates N ω init c0 n)
    rw [runStates_succ, hL, List.all_append]
    simp [ih, TraceEntry.isItemMethod]

lemma runStates_lossG_all (N : ℕ) (ω : ℕ → ℝ) (init : GanState) (c0 : ℕ) (t : ℕ)
    (h : init.lossG.all TraceEntry.isItemMethod = true) :
    (runStates N ω init c0 t).1.lossG.all TraceEntry.isItemMethod = true := by
  induction t with
  | zero => simpa [runStates_zero] using h
  | succ n ih =>
    obtain ⟨L, hL⟩ := trainStep_lossG_shape N ω (runStates N ω init c0 n)
    rw [runStates_succ, hL, List.all_append]
    simp [ih, TraceEntry.isItemMethod]

lemma runStates_gbg_succ (N : ℕ) (ω : ℕ → ℝ) (init : GanState) (c0 t : ℕ) :
    (runStates N ω init c0 (t + 1)).1.gbg =
      (runStates N ω init c0 t).1.gbg + genGradBAt N ω init c0 t := by
  rw [runStates_succ]
  show (genPhase (discPhase N ω (runStates N ω init c0 t))).1.gbg = _
  simp [genPhase, genGradBAt, midAt]

lemma runStates_gwg_succ (N : ℕ) (ω : ℕ → ℝ) (init : GanState) (c0 t : ℕ) :
    (runStates N ω init c0 (t + 1)).1.gwg =
      vecAdd (runStates N ω init c0 t).1.gwg (genGradWAt N ω init c0 t) := by
  rw [runStates_succ]
  show (genPhase (discPhase N ω (runStates N ω init c0 t))).1.gwg = _
  simp [genPhase, genGradWAt, midAt]

lemma runStates_bg_succ (N : ℕ) (ω : ℕ → ℝ) (init : GanState) (c0 t : ℕ) :
    (runStates N ω init c0 (t + 1)).1.bg =
      (runStates N ω init c0 t).1.bg -
        0.01 * ((runStates N ω init c0 t).1.gbg + genGradBAt N ω init c0 t) := by
  rw [runStates_succ]
  show (genPhase (discPhase N ω (runStates N ω init c0 t))).1.bg = _
  simp [genPhase, sgdStepGen, genGradBAt, midAt]

lemma runStates_wg_succ (N : ℕ) (ω : ℕ → ℝ) (init : GanState) (c0 t : ℕ) :
    (runStates N ω init c0 (t + 1)).1.wg =
      List.zipWith (fun w g => w - 0.01 * g) (runStates N ω init c0 t).1.wg
        (vecAdd (runStates N ω init c0 t).1.gwg (genGradWAt N ω init c0 t)) := by
  rw [runStates_succ]
  show (genPhase (discPhase N ω (runStates N ω init c0 t))).1.wg = _
  simp [genPhase, sgdStepGen, genGradWAt, midAt]

lemma runStates_lossG_succ (N : ℕ) (ω : ℕ → ℝ) (init : GanState) (c0 t : ℕ) :
    (runStates N ω init c0 (t + 1)).1.lossG =
      (runStates N ω init c0 t).1.lossG ++ [TraceEntry.itemMethod (genLossAt N ω init c0 t)] := by
  rw [runStates_succ]
  show (genPhase (discPhase N ω (runStates N ω init c0 t))).1.lossG = _
  simp [genPhase, genLossAt, midAt]

/-! ### Generator gradient accumulation -/

lemma gen_accumB (N : ℕ) (ω : ℕ → ℝ) (init : GanState) (c0 : ℕ) (t : ℕ) :
    appliedGenGradB N ω init c0 t =
      init.gbg + ∑ i in Finset.range (t + 1), genGradBAt N ω init c0 i := by
  induction t with
  | zero =>
    rw [appliedGenGradB, runStates_gbg_succ]
    simp [runStates_zero]
  | succ n ih =>
    rw [appliedGenGradB] at ih
    rw [appliedGenGradB, runStates_gbg_succ, ih]
    conv_rhs => rw [Finset.sum_range_succ]
    ring

lemma gen_accumW (N : ℕ) (ω : ℕ → ℝ) (init : GanState) (c0 : ℕ) (t : ℕ) :
    appliedGenGradW N ω init c0 t =
      vecFoldSum init.gwg (genGradWAt N ω init c0) (t + 1) := by
  induction t with
  | zero =>
    rw [appliedGenGradW, runStates_gwg_succ]
    simp [runStates_zero, vecFoldSum, List.range_succ]
  | succ n ih =>
    rw [appliedGenGradW] at ih
    rw [appliedGenGradW, runStates_gwg_succ, ih]
    conv_rhs => rw [vecFoldSum, List.range_succ, List.foldl_append]
    rfl

/-! ### Concrete evaluation of the zero-stream run -/

@[simp] lemma run0init_wg : run0init.wg = List.replicate 10 0 := rfl

@[simp] lemma run0init_bg : run0init.bg = 0 := rfl

@[simp] lemma run0init_wd : run0init.wd = 1 := rfl

@[simp] lemma run0init_bd : run0init.bd = 0 := rfl

@[simp] lemma run0init_gbg : run0init.gbg = 0 := rfl

@[simp] lemma run0init_gwd : run0init.gwd = 0 := rfl

@[simp] lemma run0init_mwd : run0init.mwd = 0 := rfl

@[simp] lemma run0init_vwd : run0init.vwd = 0 := rfl

@[simp] lemma run0init_tAdam : run0init.tAdam = 0 := rfl

lemma run0_x_eq :
    discBatch (zeroGradDisc run0init) (sampleMat 128 10 zeroStream 0).1
      (sampleMat 128 1 zeroStream (sampleMat 128 10 zeroStream 0).2).1 =
      List.replicate 256 [(0 : ℝ)] := by
  rw [discBatch, detach, sampleMat_zeroStream, sampleMat_zeroStream]
  rw [show (zeroGradDisc run0init).wg = List.replicate 10 0 from rfl]
  rw [show (zeroGradDisc run0init).bg = (0 : ℝ) from rfl]
  rw [generatorForward_zeroRun, List.replicate_one, ← List.replicate_add]

lemma midAt_run0_wg : (midAt 10 zeroStream run0init 0 0).st.wg = List.replicate 10 0 := by
  simp [midAt, runStates_zero]

lemma midAt_run0_bg : (midAt 10 zeroStream run0init 0 0).st.bg = 0 := by
  simp [midAt, runStates_zero]

lemma midAt_run0_noise :
    (midAt 10 zeroStream run0init 0 0).noise = List.replicate 128 (List.replicate 10 0) := by
  simp [midAt, runStates_zero, sampleMat_zeroStream]

lemma midAt_run0_wd : (midAt 10 zeroStream run0init 0 0).st.wd = 1 := by
  show adamTheta (0 + 1) 0 0
      (0 + discGradW 1 0
        (discBatch (zeroGradDisc run0init) (sampleMat 128 10 zeroStream 0).1
          (sampleMat 128 1 zeroStream (sampleMat 128 10 zeroStream 0).2).1) discLabels) 1 = 1
  rw [run0_x_eq, discGradW_zero_rows]
  norm_num [adamTheta_zeroGrad]

lemma genGradBAt_run0_pos : 0 < genGradBAt 10 zeroStream run0init 0 0 := by
  rw [genGradBAt, midAt_run0_wg, midAt_run0_bg, midAt_run0_wd, midAt_run0_noise]
  rw [genGradB, List.map_replicate]
  have hcoef :
      genGradCoef (List.replicate 10 0) 0 1 ((midAt 10 zeroStream run0init 0 0).st.bd)
        (List.replicate 10 0) =
        sigmoid ((midAt 10 zeroStream run0init 0 0).st.bd) * 1 * 0.01 := by
    rw [genGradCoef, dotList_replicate_zero]
    norm_num
  rw [hcoef, List.sum_replicate, nsmul_eq_mul, List.length_replicate]
  have h2 : (0 : ℝ) < sigmoid ((midAt 10 zeroStream run0init 0 0).st.bd) * 1 * 0.01 := by
    nlinarith [sigmoid_pos ((midAt 10 zeroStream run0init 0 0).st.bd)]
  have h3 : (0 : ℝ) < ((128 : ℕ) : ℝ) := by norm_num
  exact div_pos (mul_pos h3 h2) h3

/-! ### Claim theorems -/

lemma no_scalar_of_all_item (l : List TraceEntry)
    (h : l.all TraceEntry.isItemMethod = true) :
    l.any TraceEntry.isScalarValue = false := by
  induction l with
  | nil => rfl
  | cons e t ih =>
    rw [List.all_cons, Bool.and_eq_true] at h
    cases e with
    | float x => simp [TraceEntry.isItemMethod] at h
    | itemMethod x => simp [List.any_cons, TraceEntry.isScalarValue, ih h.2]

/-- Claim C1 (evidence for the code bug): the source appends `loss_1.item`
and `loss_2.item` without calling them, so for every run of `train` every
entry of both returned traces is the uncalled bound method object
`Tensor.item`, and no entry is a scalar numeric loss value — contradicting
the spec, which requires the scalar loss value to be recorded. -/
theorem C1_trace_entries_are_bound_methods (N : ℕ) (ω : ℕ → ℝ) (init : GanState) (c0 E : ℕ) :
    (train N ω init c0 E).1.all TraceEntry.isItemMethod = true ∧
    (train N ω init c0 E).2.all TraceEntry.isItemMethod = true ∧
    (train N ω init c0 E).1.any TraceEntry.isScalarValue = false ∧
    (train N ω init c0 E).2.any TraceEntry.isScalarValue = false := by
  have h1 := runStates_lossD_all N ω { init with lossD := [], lossG := [] } c0 E (by simp)
  have h2 := runStates_lossG_all N ω { init with lossD := [], lossG := [] } c0 E (by simp)
  exact ⟨h1, h2, no_scalar_of_all_item _ h1, no_scalar_of_all_item _ h2⟩

/-- Claim C4: `optimizer_disc.step()` (Adam over the discriminator's
parameters only) leaves both generator parameters unchanged, and
`optimizer_gen.step()` (SGD over the generator's parameters only) leaves
both discriminator parameters unchanged. -/
theorem C4_parameter_isolation (st : GanState) :
    (adamStepDisc st).wg = st.wg ∧ (adamStepDisc st).bg = st.bg ∧
    (sgdStepGen st).wd = st.wd ∧ (sgdStepGen st).bd = st.bd :=
  ⟨rfl, rfl, rfl, rfl⟩

/-- Claim C5: in every training iteration the discriminator's batch is
`real ++ fake` (real first) with exactly 2 * BATCH_SZ rows, and the label
tensor aligns row-for-row: its first BATCH_SZ rows are 1 (over the real
rows) and its next BATCH_SZ rows are 0 (over the fake rows). -/
theorem C5_discriminator_batch_layout (st : GanState) (N : ℕ) (ω : ℕ → ℝ) (c c' : ℕ) :
    (discBatch st (sampleMat 128 N ω c).1 (sampleMat 128 1 ω c').1).length = 2 * 128 ∧
    (discBatch st (sampleMat 128 N ω c).1 (sampleMat 128 1 ω c').1).take 128 =
      (sampleMat 128 1 ω c').1 ∧
    (discBatch st (sampleMat 128 N ω c).1 (sampleMat 128 1 ω c').1).drop 128 =
      generatorForward st.wg st.bg (sampleMat 128 N ω c).1 ∧
    discLabels.length = 2 * 128 ∧
    discLabels.take 128 = List.replicate 128 [(1 : ℝ)] ∧
    discLabels.drop 128 = List.replicate 128 [(0 : ℝ)] := by
  have hr : ((sampleMat 128 1 ω c').1).length = 128 := sampleMat_fst_length 128 1 ω c'
  refine ⟨?_, ?_, ?_, ?_, ?_, ?_⟩
  · simp [discBatch, detach, generatorForward]
  · exact List.take_left' hr
  · exact List.drop_left' hr
  · simp [discLabels, onesCol, zerosCol]
  · exact List.take_left' (by simp [onesCol])
  · exact List.drop_left' (by simp [onesCol])

/-- Claim C6: for every epoch count E (including 0), `train` returns two
traces, each of length exactly E. -/
theorem C6_trace_lengths (N : ℕ) (ω : ℕ → ℝ) (init : GanState) (c0 E : ℕ) :
    (train N ω init c0 E).1.length = E ∧ (train N ω init c0 E).2.length = E := by
  constructor
  · simpa [train] using
      runStates_lossD_length N ω { init with lossD := [], lossG := [] } c0 E
  · simpa [train] using
      runStates_lossG_length N ω { init with lossD := [], lossG := [] } c0 E

/-- Claim C7: training is a pure function of the random stream (covering
both sampling and parameter initialisation), the initial state and the
hyperparameters, so two runs with identical inputs produce identical loss
traces. -/
theorem C7_determinism (N₁ N₂ : ℕ) (ω₁ ω₂ : ℕ → ℝ) (init₁ init₂ : GanState)
    (c₁ c₂ E₁ E₂ : ℕ) (hN : N₁ = N₂) (hω : ω₁ = ω₂) (hinit : init₁ = init₂)
    (hc : c₁ = c₂) (hE : E₁ = E₂) :
    train N₁ ω₁ init₁ c₁ E₁ = train N₂ ω₂ init₂ c₂ E₂ := by
  subst hN hω hinit hc hE
  rfl

/-- Witness for C7 at a concrete seed, initial state and epoch count. -/
theorem C7_determinism_witness :
    train 10 zeroStream run0init 0 3 = train 10 zeroStream run0init 0 3 :=
  C7_determinism 10 10 zeroStream zeroStream run0init run0init 0 0 3 3 rfl rfl rfl rfl rfl

/-- Claim C8: every value produced by the discriminator is the sigmoid of
a finite affine pre-activation and therefore lies strictly between 0 and 1. -/
theorem C8_discriminator_output_range (wd bd : ℝ) (x : Mat) (r : List ℝ) (p : ℝ)
    (hr : r ∈ discriminatorForward wd bd x) (hp : p ∈ r) : 0 < p ∧ p < 1 := by
  rcases List.mem_map.mp hr with ⟨row, _, rfl⟩
  rw [List.mem_singleton] at hp
  subst hp
  exact ⟨sigmoid_pos _, sigmoid_lt_one _⟩

/-- Witness for C8 on the concrete batch [[0]] with zero parameters. -/
theorem C8_discriminator_output_range_witness :
    0 < sigmoid (0 * ([(0 : ℝ)]).headI + 0) ∧ sigmoid (0 * ([(0 : ℝ)]).headI + 0) < 1 :=
  C8_discriminator_output_range 0 0 [[0]] [sigmoid (0 * ([(0 : ℝ)]).headI + 0)]
    (sigmoid (0 * ([(0 : ℝ)]).headI + 0)) (by simp [discriminatorForward]) (by simp)

/-- Claim C2 (amended): in every training iteration the generator update
computes the binary cross-entropy between the discriminator's output on
the attached fake batch and an all-zero (128, 1) label tensor, adds this
loss's gradient to the generator's never-cleared gradient buffer, and
applies one SGD step using the accumulated buffer (which equals this
loss's own gradient only when the buffer was previously zero). -/
theorem C2_generator_update_amended (N : ℕ) (ω : ℕ → ℝ) (init : GanState) (c0 t : ℕ) :
    (runStates N ω init c0 (t + 1)).1.lossG =
      (runStates N ω init c0 t).1.lossG ++ [TraceEntry.itemMethod (genLossAt N ω init c0 t)] ∧
    (runStates N ω init c0 (t + 1)).1.gbg =
      (runStates N ω init c0 t).1.gbg + genGradBAt N ω init c0 t ∧
    (runStates N ω init c0 (t + 1)).1.bg =
      (runStates N ω init c0 t).1.bg -
        0.01 * ((runStates N ω init c0 t).1.gbg + genGradBAt N ω init c0 t) ∧
    (runStates N ω init c0 (t + 1)).1.wg =
      List.zipWith (fun w g => w - 0.01 * g) (runStates N ω init c0 t).1.wg
        (vecAdd (runStates N ω init c0 t).1.gwg (genGradWAt N ω init c0 t)) :=
  ⟨runStates_lossG_succ N ω init c0 t, runStates_gbg_succ N ω init c0 t,
   runStates_bg_succ N ω init c0 t, runStates_wg_succ N ω init c0 t⟩

/-- Counterexample to claim C2 as stated: in the concrete zero-stream run,
the gradient consumed by the generator's SGD step at iteration 1 (the
second iteration) differs from the gradient of that iteration's own
generator loss, because iteration 0's nonzero gradient is still in the
never-cleared buffer. -/
theorem C2_sgd_consumes_accumulated_gradient_cex :
    appliedGenGradB 10 zeroStream run0init 0 1 ≠ genGradBAt 10 zeroStream run0init 0 1 := by
  rw [gen_accumB]
  rw [show run0init.gbg = (0 : ℝ) from rfl]
  rw [Finset.sum_range_succ, Finset.sum_range_one, zero_add]
  intro h
  have h0 : genGradBAt 10 zeroStream run0init 0 0 = 0 := by linarith
  exact absurd h0 (ne_of_gt genGradBAt_run0_pos)

/-- Claim C3: starting from freshly constructed models (all gradient
buffers empty), the gradient consumed by the generator's SGD step at
iteration t (0-indexed) is the sum of the gradients of the generator
losses of iterations 0..t, each taken at its own iteration's parameters:
the generator buffer is never cleared, so backward calls accumulate. -/
theorem C3_generator_gradient_accumulation (wg0 : List ℝ) (bg0 wd0 bd0 : ℝ) (N : ℕ)
    (ω : ℕ → ℝ) (c0 E t : ℕ) (hE : 2 ≤ E) (ht : t < E) :
    appliedGenGradB N ω (initState wg0 bg0 wd0 bd0) c0 t =
      ∑ i in Finset.range (t + 1), genGradBAt N ω (initState wg0 bg0 wd0 bd0) c0 i ∧
    appliedGenGradW N ω (initState wg0 bg0 wd0 bd0) c0 t =
      vecFoldSum (List.replicate wg0.length 0)
        (genGradWAt N ω (initState wg0 bg0 wd0 bd0) c0) (t + 1) := by
  constructor
  · rw [gen_accumB, show (initState wg0 bg0 wd0 bd0).gbg = 0 from rfl, zero_add]
  · rw [gen_accumW]
    rfl

/-- Witness for C3 with E = 2, t = 1 on the concrete zero-stream run. -/
theorem C3_generator_gradient_accumulation_witness :
    appliedGenGradB 10 zeroStream (initState (List.replicate 10 0) 0 1 0) 0 1 =
      (∑ i in Finset.range 2,
        genGradBAt 10 zeroStream (initState (List.replicate 10 0) 0 1 0) 0 i) ∧
    appliedGenGradW 10 zeroStream (initState (List.replicate 10 0) 0 1 0) 0 1 =
      vecFoldSum (List.replicate (List.replicate 10 (0 : ℝ)).length 0)
        (genGradWAt 10 zeroStream (initState (List.replicate 10 0) 0 1 0) 0) 2 :=
  C3_generator_gradient_accumulation (List.replicate 10 0) 0 1 0 10 zeroStream 0 2 1
    (by decide) (by decide)

/-- Claim C9 (amended): evaluation draws a noise batch of S rows, maps it
through the generator without touching any model state, and its result is
the generator's 2-D (S, 1) output — S rows of one element each, not a
flattened 1-D vector. -/
theorem C9_evaluation_shape_amended (st : GanState) (S N : ℕ) (ω : ℕ → ℝ) (c : ℕ) :
    (evaluate st S N ω c).length = S ∧
    (evaluate st S N ω c).all (fun r => r.length == 1) = true ∧
    (evaluateRun st S N ω c).2 = st := by
  refine ⟨?_, ?_, rfl⟩
  · simp [evaluate, evaluateRun, detach, generatorForward]
  · rw [List.all_eq_true]
    intro r hr
    simp only [evaluate, evaluateRun, detach, generatorForward] at hr
    rcases List.mem_map.mp hr with ⟨row, _, rfl⟩
    rfl

/-- Counterexample to claim C9 as stated: at S = 1, N = 1 the evaluation
output is the 2-D (1, 1) value [[v]], not the flattened 1-D vector [v]
that the spec describes (the notebook never flattens it). -/
theorem C9_output_not_flattened_cex :
    npOfMat (evaluate (initState [0] 0 1 0) 1 1 zeroStream 0) ≠
      evaluateSpec (initState [0] 0 1 0) 1 1 zeroStream 0 := by
  have hrange : List.range 1 = [0] := rfl
  intro h
  simp [npOfMat, evaluateSpec, evaluate, evaluateRun, detach, generatorForward,
    sampleMat, hrange] at h

/-- Claim C10 (amended): a sample generator call fails with the
InvalidArgument error exactly when n_samples or n_dim is negative; zero
and positive arguments raise no error (a zero dimension yields an empty
axis, mirroring numpy). -/
theorem C10_sample_generator_errors_amended (n d : ℤ) (ω : ℕ → ℝ) (c : ℕ) :
    ((∃ e, generate_gaussian n d ω c = Except.error e) ↔ n < 0 ∨ d < 0) ∧
    ((∃ e, generate_uniform n d ω c = Except.error e) ↔ n < 0 ∨ d < 0) := by
  constructor <;>
  · by_cases h : n < 0 ∨ d < 0 <;>
      simp [generate_gaussian, generate_uniform, h] <;>
      exact ⟨NpError.invalidArgument, trivial⟩

/-- Counterexample to claim C10 as stated: n_samples = 0 is non-positive,
yet the call succeeds and returns an empty batch — numpy (and hence the
source) rejects only negative dimensions. -/
theorem C10_zero_samples_no_error_cex :
    (0 : ℤ) ≤ 0 ∧ generate_gaussian 0 1 zeroStream 0 = Except.ok ([], 0) := by
  refine ⟨le_refl 0, ?_⟩
  simp [generate_gaussian, sampleMat]
